import Mathlib

/-!
Verification development for the edge-side traffic data handler
(`dataHandler_refactored`).  The Python source is shallowly embedded:
records (Python `dict` / `defaultdict(lambda: 'NULL')`) become association
lists over a closed `Value` type, the merger's bucket maps become
association lists keyed by `(lane_no, kncr_cd)`, and the stateful loops
become explicit step functions.  Wall-clock time (`time.time()`),
`hashlib.md5`/`hashlib.sha256` and the lane offset are passed as explicit
parameters.  Machine integers are `Int` (Python ints are unbounded), and
the OCR geometry (float arithmetic in the source) is modelled over `ℚ`.
Operations that can raise in Python (`json.dumps` on `bytes`,
`str + int`, division by a zero group size) return `Option`.
-/

namespace Track

/-- Values occurring in this program's records.  The record values built by
the router, merger, OCR stage and sender are strings, ints, byte buffers
(JPEG encodings), the `_send_to` string list and the `sent_to` bool map;
`vNull` stands for Python `None`. -/
inductive Value where
  | vStr (s : String)
  | vInt (n : Int)
  | vBool (b : Bool)
  | vNull
  | vBytes (bs : List Nat)
  | vStrList (ss : List String)
  | vBoolMap (m : List (String × Bool))
deriving DecidableEq, Repr

open Value

/-- A record: an insertion-ordered key/value mapping (Python `dict`). -/
abbrev Record := List (String × Value)

/-- Key lookup (`dict.get(k)` / `k in dict`). -/
def Record.get? (r : Record) (k : String) : Option Value :=
  match r with
  | [] => none
  | (k', v) :: rest => if k' = k then some v else Record.get? rest k

/-- `defaultdict(lambda: 'NULL')` item access: missing keys read as the
string `"NULL"`.  (All records flowing between stages are wrapped this way
by the receiver / retry worker.) -/
def Record.getNULL (r : Record) (k : String) : Value :=
  (r.get? k).getD (vStr "NULL")

/-- `dict.get(k, 0)` as used by the merger on the time field. -/
def Record.get0 (r : Record) (k : String) : Value :=
  (r.get? k).getD (vInt 0)

/-- Key assignment (`d[k] = v`): update in place, append if new
(Python dicts preserve insertion order). -/
def Record.set (r : Record) (k : String) (v : Value) : Record :=
  match r with
  | [] => [(k, v)]
  | (k', v') :: rest =>
      if k' = k then (k, v) :: rest else (k', v') :: Record.set rest k v

/-- Key deletion (`del d[k]`). -/
def Record.del (r : Record) (k : String) : Record :=
  r.filter (fun kv => kv.1 ≠ k)

-- Structurally recursive character-level string utilities (the kernel
-- cannot evaluate the core `String` functions defined by well-founded
-- recursion, so concrete runs use these).

/-- Split a character list at every occurrence of `c` (Python
`str.split(sep)` for a one-character separator). -/
def splitCharAux (c : Char) : List Char → List (List Char)
  | [] => [[]]
  | ch :: rest =>
      let r := splitCharAux c rest
      if ch = c then [] :: r
      else (ch :: r.headD []) :: r.tail

def pySplit (c : Char) (s : String) : List String :=
  (splitCharAux c s.data).map (fun l => ⟨l⟩)

/-- Decimal digit value. -/
def digitVal (c : Char) : Option Nat :=
  if '0' ≤ c ∧ c ≤ '9' then some (c.toNat - '0'.toNat) else none

def natOfDigits : List Char → Option Nat
  | [] => none
  | l =>
      l.foldl
        (fun acc c =>
          match acc, digitVal c with
          | some n, some d => some (n * 10 + d)
          | _, _ => none)
        (some 0)

/-- Python `int(str)` for the optionally signed decimal strings this
program feeds it. -/
def strToInt? (s : String) : Option Int :=
  match s.data with
  | '-' :: rest => (natOfDigits rest).map (fun n => -(n : Int))
  | l => (natOfDigits l).map (fun n => (n : Int))

/-- Python `str.strip()` restricted to the whitespace that can surround
the one-digit presence payloads. -/
def isWs (c : Char) : Bool := c = ' ' ∨ c = '\n' ∨ c = '\t' ∨ c = '\r'

def pyStrip (s : String) : String :=
  ⟨((s.data.dropWhile isWs).reverse.dropWhile isWs).reverse⟩

/-- `s[:-n]` (empty when the string is at most `n` long). -/
def pyDropRight (s : String) (n : Nat) : String :=
  ⟨s.data.take (s.data.length - n)⟩

def chStarts : List Char → List Char → Bool
  | _, [] => true
  | [], _ :: _ => false
  | a :: as, b :: bs => a = b && chStarts as bs

/-- `str.startswith`. -/
def pyStartsWith (s pre : String) : Bool := chStarts s.data pre.data

/-- `str.endswith`. -/
def pyEndsWith (s suf : String) : Bool :=
  chStarts s.data.reverse suf.data.reverse

/-- Python `int(·)` on the values that reach it in the merger/sender paths
(decimal strings and ints).  A non-numeric string raises in Python and
aborts the loop iteration; every record these claims quantify over carries
a decimal string here, where the two semantics agree. -/
def pyInt (v : Value) : Int :=
  match v with
  | vInt n => n
  | vStr s => (strToInt? s).getD 0
  | vBool b => if b then 1 else 0
  | _ => 0

/-- Python `str(·)` on scalar values. -/
def pyStr (v : Value) : String :=
  match v with
  | vStr s => s
  | vInt n => toString n
  | vBool b => if b then "True" else "False"
  | vNull => "None"
  | _ => ""

/-- Python `+` on a `str` left operand: concatenation when the right
operand is a `str`, otherwise a `TypeError` (modelled as `none`). -/
def pyAddStr (a : String) (b : Value) : Option String :=
  match b with
  | vStr s => some (a ++ s)
  | _ => none

-- ============================================================
-- Field keys (data/constants.py, class FieldKey) and data types
-- ============================================================

namespace FK
def SPOT_CAMR_ID          : String := "spot_camr_id"
def CAR_TYPE              : String := "kncr_cd"
def LANE_NO               : String := "lane_no"
def TURN_TYPE_CD          : String := "turn_type_cd"
def TURN_TIME             : String := "turn_dttn_unix_tm"
def TURN_SPEED            : String := "turn_dttn_sped"
def STOP_PASS_TIME        : String := "stln_pasg_unix_tm"
def STOP_PASS_SPEED       : String := "stln_dttn_sped"
def INTERVAL_SPEED        : String := "vhcl_sect_sped"
def FIRST_DET_TIME        : String := "frst_obsrvn_unix_tm"
def OBSERVE_TIME          : String := "vhcl_obsrvn_hr"
def IMAGE_PATH_NAME       : String := "img_path_nm"
def IMAGE_FILE_NAME       : String := "img_file_nm"
def CAR_IMAGE_FILE_NAME   : String := "vhcl_img_file_nm"
def PLATE_IMAGE_FILE_NAME : String := "nopl_img_file_nm"
def PLATE_NUM             : String := "vhno_nm"
def PLATE_YN              : String := "vhno_dttn_yn"
def CAR_ID_2K             : String := "vhcl_dttn_2k_id"
def CAR_ID_4K             : String := "vhcl_dttn_4k_id"
def CAR_ID                : String := "vhcl_dttn_id"
def PRESENCE_STATE        : String := "presence_state"
def DATA_TYPE             : String := "data_type"
def UK                    : String := "unique_key"
def UK_PLAIN              : String := "unique_key_plain"
def IMAGE_FILE            : String := "image_file"
def IMAGE_BYTES_4K        : String := "image_data_4k"
def IMAGE_BYTES_PLATE_4K  : String := "plate_image_data_4k"
def OBJ_ID                : String := "object_id"
def SEND_TO               : String := "_send_to"
def PREPARED              : String := "_prepared"
def SENT_TO               : String := "sent_to"
end FK

namespace DT
def VEHICLE_2K     : String := "2k"
def VEHICLE_4K     : String := "4k"
def VEHICLE_RAW_4K : String := "4k_R"
def MERGE          : String := "merge"
def QUEUE_APPROACH : String := "approach_queue"
def QUEUE_LANES    : String := "lanes_queue"
def INCIDENT_START : String := "abn_start"
def PRESENCE_VH    : String := "pr_vh"
def PRESENCE_WAIT  : String := "pr_wt"
def PRESENCE_CROSS : String := "pr_cr"
end DT

-- ============================================================
-- Router (data/router.py), non-special-site configuration
-- ============================================================

/-- Positional CSV schema for 2K vehicle payloads (`CSV_JSON_MAP_2K`). -/
def CSV_JSON_MAP_2K : List String :=
  [FK.CAR_ID_2K, FK.CAR_TYPE, FK.LANE_NO, FK.TURN_TYPE_CD, FK.TURN_TIME,
   FK.TURN_SPEED, FK.STOP_PASS_TIME, FK.STOP_PASS_SPEED, FK.INTERVAL_SPEED,
   FK.FIRST_DET_TIME, FK.OBSERVE_TIME, FK.IMAGE_PATH_NAME,
   FK.CAR_IMAGE_FILE_NAME]

/-- Positional CSV schema for raw-4K payloads (`CSV_JSON_MAP_RAW_4K`). -/
def CSV_JSON_MAP_RAW_4K : List String :=
  [FK.CAR_ID_4K, FK.STOP_PASS_TIME, FK.LANE_NO, FK.CAR_TYPE,
   FK.IMAGE_PATH_NAME]

/-- `dict(zip(keys, values))`: pair keys with CSV fields, truncating at the
shorter list. -/
def zipRecord (keys : List String) (vals : List String) : Record :=
  (keys.zip vals).map (fun kv => (kv.1, vStr kv.2))

/-- `BuildResult`: the three disjoint output lists of the router. -/
structure BuildResult where
  toServer : List Record := []
  toMerge  : List Record := []
  toOcr    : List Record := []
deriving Repr, DecidableEq

/-- `_serialize_2k`: the 2K natural key
`car_id,stop_pass_time,car_type,lane_no,turn_time,stop_pass_speed,image_file`. -/
def serialize2k (r : Record) : String :=
  pyStr (r.getNULL FK.CAR_ID_2K) ++ "," ++
  pyStr (r.getNULL FK.STOP_PASS_TIME) ++ "," ++
  pyStr (r.getNULL FK.CAR_TYPE) ++ "," ++
  pyStr (r.getNULL FK.LANE_NO) ++ "," ++
  pyStr (r.getNULL FK.TURN_TIME) ++ "," ++
  pyStr (r.getNULL FK.STOP_PASS_SPEED) ++ "," ++
  pyStr (r.getNULL FK.CAR_IMAGE_FILE_NAME)

/-- `_serialize_raw_4k`: `car_id_4k,stop_pass_time,car_type,lane_no`. -/
def serializeRaw4k (r : Record) : String :=
  pyStr (r.getNULL FK.CAR_ID_4K) ++ "," ++
  pyStr (r.getNULL FK.STOP_PASS_TIME) ++ "," ++
  pyStr (r.getNULL FK.CAR_TYPE) ++ "," ++
  pyStr (r.getNULL FK.LANE_NO)

/-- `_set_destination`: stamp `_send_to` on every output record; a
merge-typed server record keeps a pre-existing `_send_to`. -/
def setDestination (res : BuildResult) (sendTo : Option (List String)) :
    BuildResult :=
  match sendTo with
  | none => res
  | some st =>
      { toServer := res.toServer.map (fun d =>
          if d.getNULL FK.DATA_TYPE = vStr DT.MERGE then
            if d.get? FK.SEND_TO = none then d.set FK.SEND_TO (vStrList st)
            else d
          else d.set FK.SEND_TO (vStrList st)),
        toMerge := res.toMerge.map (fun d => d.set FK.SEND_TO (vStrList st)),
        toOcr := res.toOcr.map (fun d => d.set FK.SEND_TO (vStrList st)) }

/-- `_route_2k` with the special site disabled: CSV split, schema zip,
unique key, plus the pessimistic merge seed (`plate_detected = N`). -/
def route2k (payload : String) (sendTo : Option (List String)) : BuildResult :=
  let r0 := zipRecord CSV_JSON_MAP_2K (pySplit ',' payload)
  let r1 := r0.set FK.DATA_TYPE (vStr DT.VEHICLE_2K)
  let r := r1.set FK.UK_PLAIN (vStr (serialize2k r1))
  let seed := ((r.set FK.DATA_TYPE (vStr DT.MERGE)).set FK.PLATE_YN
      (vStr "N")).set FK.CAR_ID (r.getNULL FK.CAR_ID_2K)
  setDestination { toServer := [r, seed], toMerge := [r] } sendTo

/-- `_route_raw_4k`: CSV split, schema zip, unique key, routed to OCR. -/
def routeRaw4k (payload : String) (sendTo : Option (List String)) :
    BuildResult :=
  let r0 := zipRecord CSV_JSON_MAP_RAW_4K (pySplit ',' payload)
  let r1 := r0.set FK.DATA_TYPE (vStr DT.VEHICLE_RAW_4K)
  let r := r1.set FK.UK_PLAIN (vStr (serializeRaw4k r1))
  setDestination { toOcr := [r] } sendTo

/-- `_route_presence`: `state = int(payload.strip())`; the emitted record
carries `presence_state` and `unique_key_plain` as Python ints. -/
def routePresence (payload : String) (ltype : String)
    (sendTo : Option (List String)) : BuildResult :=
  let state : Int := (strToInt? (pyStrip payload)).getD 0
  let r : Record :=
    [(FK.DATA_TYPE, vStr ltype), (FK.PRESENCE_STATE, vInt state),
     (FK.UK_PLAIN, vInt state)]
  setDestination { toServer := [r] } sendTo

-- ============================================================
-- Merger (data/merger.py), non-special-site configuration
-- ============================================================

/-- Bucket key `(lane_no, car_type)`. -/
abbrev BKey := Value × Value

/-- The merger's bucket maps `compare_2k` / `compare_4k`:
`(lane_no, kncr_cd) → time-ordered list of records`. -/
abbrev BucketMap := List (BKey × List Record)

def BucketMap.get (m : BucketMap) (k : BKey) : List Record :=
  match m with
  | [] => []
  | (k', b) :: rest => if k' = k then b else BucketMap.get rest k

def BucketMap.set (m : BucketMap) (k : BKey) (b : List Record) : BucketMap :=
  match m with
  | [] => [(k, b)]
  | (k', b') :: rest =>
      if k' = k then (k, b) :: rest else (k', b') :: BucketMap.set rest k b

/-- `bucket_map.pop(key, None)`. -/
def BucketMap.pop (m : BucketMap) (k : BKey) : BucketMap :=
  m.filter (fun kb => kb.1 ≠ k)

/-- `int(record[STOP_PASS_TIME])` (defaultdict item access). -/
def sptItem (r : Record) : Int := pyInt (r.getNULL FK.STOP_PASS_TIME)

/-- `int(x.get(STOP_PASS_TIME, 0))` as used to build the time vectors. -/
def sptGet0 (r : Record) : Int := pyInt (r.get0 FK.STOP_PASS_TIME)

/-- `bisect.bisect_left` on a list of ints: the exact binary-search loop
(`lo = 0; hi = len; while lo < hi: mid = (lo+hi)//2; ...`).  The loop
runs at most `hi - lo` iterations, so the structural fuel below (started
at the list length) never runs out. -/
def bisectLeftAux (a : List Int) (x : Int) : Nat → Nat → Nat → Nat
  | 0, lo, _ => lo
  | fuel + 1, lo, hi =>
    if lo < hi then
      let mid := (lo + hi) / 2
      if a.getD mid 0 < x then bisectLeftAux a x fuel (mid + 1) hi
      else bisectLeftAux a x fuel lo mid
    else lo

def bisectLeft (l : List Int) (x : Int) : Nat :=
  bisectLeftAux l x l.length 0 l.length

/-- `Merger._insert_sorted`: insert a record at the `bisect_left` position
of its `stop_pass_time` in the bucket's time vector. -/
def insertSorted (bucket : List Record) (r : Record) : List Record :=
  let timestamp := sptItem r
  let timelist := bucket.map sptGet0
  let index := bisectLeft timelist timestamp
  bucket.take index ++ r :: bucket.drop index

/-- `Merger._drain_queue` on the (already dequeued) backlog of one queue:
records with `turn_type_cd == "41"` are skipped, the rest are inserted
sorted into their `(lane_no, car_type)` bucket. -/
def drainQueue (backlog : List Record) (m : BucketMap) : BucketMap :=
  backlog.foldl
    (fun acc r =>
      if r.get? FK.TURN_TYPE_CD = some (vStr "41") then acc
      else
        let key : BKey := (r.getNULL FK.LANE_NO, r.getNULL FK.CAR_TYPE)
        acc.set key (insertSorted (acc.get key) r))
    m

/-- One bucket of `Merger._remove_old_data`: `k = bisect_left(times, cutoff);
del bucket[:k]`. -/
def removeOldBucket (bucket : List Record) (cutoff : Int) : List Record :=
  let times := bucket.map sptGet0
  bucket.drop (bisectLeft times cutoff)

/-- `Merger._remove_old_data` with `cutoff = now - 60`: age every bucket,
dropping emptied keys. -/
def removeOldData (m : BucketMap) (now : Int) : BucketMap :=
  let cutoff := now - 60
  (m.map (fun kb => (kb.1, removeOldBucket kb.2 cutoff))).filter
    (fun kb => kb.2 ≠ [])

/-- The merged record built on a match: a deep copy of the 2K record with
`data_type := merge`, `car_id := car_id_2k`, and the 4K record's
`plate_image_file_name` and `plate_num` copied over.  (`plate_detected`
is not touched.) -/
def mkMerged (item2k item4k : Record) : Record :=
  (((item2k.set FK.DATA_TYPE (vStr DT.MERGE)).set FK.CAR_ID
      (item2k.getNULL FK.CAR_ID_2K)).set FK.PLATE_IMAGE_FILE_NAME
      (item4k.getNULL FK.PLATE_IMAGE_FILE_NAME)).set FK.PLATE_NUM
      (item4k.getNULL FK.PLATE_NUM)

/-- The two-pointer walk of `Merger._compare` over one key's sorted 2K and
4K lists: returns the matched `(2K, 4K)` pairs in emission order together
with the matched index lists. -/
def walkFuel (d2 d4 : List Record) :
    Nat → Nat → Nat → List (Record × Record) × List Nat × List Nat
  | 0, _, _ => ([], [], [])
  | fuel + 1, i, j =>
    if h : i < d2.length ∧ j < d4.length then
      let item2 := d2.get ⟨i, h.1⟩
      let item4 := d4.get ⟨j, h.2⟩
      let t2 := sptItem item2
      let t4 := sptItem item4
      if (t2 - t4).natAbs ≤ 1 then
        let rest := walkFuel d2 d4 fuel (i + 1) (j + 1)
        ((item2, item4) :: rest.1, i :: rest.2.1, j :: rest.2.2)
      else if t2 < t4 - 1 then walkFuel d2 d4 fuel (i + 1) j
      else walkFuel d2 d4 fuel i (j + 1)
    else ([], [], [])

/-- The walk advances a pointer each iteration, so fuel
`|d2| + |d4|` always reaches the loop exit. -/
def walk (d2 d4 : List Record) (i j : Nat) :
    List (Record × Record) × List Nat × List Nat :=
  walkFuel d2 d4 (d2.length + d4.length) i j

/-- `for index in reversed(matched): del data[index]`. -/
def delIndicesDesc (l : List Record) (idxs : List Nat) : List Record :=
  idxs.reverse.foldl (fun acc i => acc.eraseIdx i) l

/-- Per-key body of `Merger._compare` over the common keys: walk, emit the
matched pairs, delete matched indices, drop emptied keys. -/
def compareKeys (keys : List BKey) (s2 s4 : BucketMap) :
    BucketMap × BucketMap × List (Record × Record) :=
  match keys with
  | [] => (s2, s4, [])
  | k :: ks =>
      let d2 := s2.get k
      let d4 := s4.get k
      if d2 = [] ∨ d4 = [] then compareKeys ks s2 s4
      else
        let w := walk d2 d4 0 0
        let d2' := delIndicesDesc d2 w.2.1
        let d4' := delIndicesDesc d4 w.2.2
        let s2' := if d2' = [] then s2.pop k else s2.set k d2'
        let s4' := if d4' = [] then s4.pop k else s4.set k d4'
        let rest := compareKeys ks s2' s4'
        (rest.1, rest.2.1, w.1 ++ rest.2.2)

/-- `Merger._compare` (special site disabled): skip when either map is
empty, age both sides, then match over the common keys.  The matched
pairs are returned; the records actually put on the server queue are
`mkMerged` of each pair. -/
def compareStep (s2 s4 : BucketMap) (now : Int) :
    BucketMap × BucketMap × List (Record × Record) :=
  if s2 = [] ∨ s4 = [] then (s2, s4, [])
  else
    let s2a := removeOldData s2 now
    let s4a := removeOldData s4 now
    let common := (s2a.map Prod.fst).filter
      (fun k => (s4a.map Prod.fst).contains k)
    compareKeys common s2a s4a

/-- One iteration of `Merger.main_loop`: the blocking 2K dequeue inserts
its record unconditionally (no u-turn filter on this path), then both
queue backlogs are drained (with the u-turn filter), then one matching
pass runs. -/
def mainLoopStep (s2 s4 : BucketMap) (rec2k : Record)
    (backlog2k backlog4k : List Record) (now : Int) :
    BucketMap × BucketMap × List (Record × Record) :=
  let key : BKey := (rec2k.getNULL FK.LANE_NO, rec2k.getNULL FK.CAR_TYPE)
  let s2 := s2.set key (insertSorted (s2.get key) rec2k)
  let s2 := drainQueue backlog2k s2
  let s4 := drainQueue backlog4k s4
  compareStep s2 s4 now

-- ============================================================
-- Sender prepare step (data/sender.py) and path utilities
-- ============================================================

/-- Gregorian date from days since the Unix epoch (the pure content of
`datetime.utcfromtimestamp`); standard civil-from-days computation. -/
def civilFromDays (z0 : Int) : Int × Int × Int :=
  let z := z0 + 719468
  let era := (if 0 ≤ z then z else z - 146096) / 146097
  let doe := z - era * 146097
  let yoe := (doe - doe / 1460 + doe / 36524 - doe / 146096) / 365
  let doy := doe - (365 * yoe + yoe / 4 - yoe / 100)
  let mp := (5 * doy + 2) / 153
  let d := doy - (153 * mp + 2) / 5 + 1
  let m := mp + (if mp < 10 then 3 else (-9 : Int))
  (yoe + era * 400 + (if m ≤ 2 then 1 else 0), m, d)

/-- Zero-pad to two digits (`strftime` field slices). -/
def pad2 (n : Int) : String :=
  if 0 ≤ n ∧ n < 10 then "0" ++ toString n else toString n

def pad4 (n : Int) : String :=
  if 1000 ≤ n then toString n
  else if 100 ≤ n then "0" ++ toString n
  else if 10 ≤ n then "00" ++ toString n
  else "000" ++ toString n

/-- `utils/file.py generate_time_path`: add the fixed 32400 s (KST) offset,
then `YYYY/MM/DD/HH/MM` for image types 10 and 30, `YYYY/MM/DD`
otherwise. -/
def generateTimePath (unixTime : Int) (imageType : Nat) : String :=
  let t := unixTime + 32400
  let days := t / 86400
  let secs := t % 86400
  let ymd := civilFromDays days
  let base := pad4 ymd.1 ++ "/" ++ pad2 ymd.2.1 ++ "/" ++ pad2 ymd.2.2
  if imageType = 10 ∨ imageType = 30 then
    base ++ "/" ++ pad2 (secs / 3600) ++ "/" ++ pad2 ((secs % 3600) / 60)
  else base

/-- `os.path.join` for two components. -/
def pyJoin2 (a b : String) : String :=
  if pyStartsWith b "/" then b
  else if a = "" ∨ pyEndsWith a "/" then a ++ b
  else a ++ "/" ++ b

def pyJoin3 (a b c : String) : String := pyJoin2 (pyJoin2 a b) c

/-- `s.split(sep)[-1]`. -/
def lastSplit (sep : Char) (s : String) : String :=
  (pySplit sep s).getLastD ""

/-- The `image_remote` bases from the configuration. -/
structure RemoteCfg where
  car2k    : String
  car4k    : String
  queuePath : String
  abnormal : String

/-- `DataSender._hash_data`: `unique_key := sha256(camera_id +
unique_key_plain)` — a `TypeError` (`none`) when `unique_key_plain` is not
a `str` — then the per-type id swap into `object_id`. -/
def hashData (sha256 : String → String) (cameraId : String) (r : Record) :
    Option Record := do
  let dtype := r.getNULL FK.DATA_TYPE
  let plain ← pyAddStr cameraId (r.getNULL FK.UK_PLAIN)
  let r := r.set FK.UK (vStr (sha256 plain))
  if dtype = vStr DT.VEHICLE_2K then
    return (r.set FK.OBJ_ID (r.getNULL FK.CAR_ID_2K)).set FK.CAR_ID_2K
      (r.getNULL FK.UK)
  else if dtype = vStr DT.MERGE then
    return (r.set FK.OBJ_ID (r.getNULL FK.CAR_ID)).set FK.CAR_ID
      (r.getNULL FK.UK)
  else if dtype = vStr DT.VEHICLE_RAW_4K then
    return (r.set FK.OBJ_ID (r.getNULL FK.CAR_ID_4K)).set FK.CAR_ID_4K
      (r.getNULL FK.UK)
  else
    return r

/-- `DataSender._get_remote_dir`: pick the local file, hash the file
names (vehicle/incident: `{type}_{md5(joined local path)}.jpg`; raw-4K
plate: `20_{md5(plate_num)}.jpg` or `N_PLATE`; queue: the original base
name), and return the mutated record with the remote directory
`join(base, camera_id, time_path)`. -/
def getRemoteDir (md5 : String → String) (cameraId : String)
    (cfg : RemoteCfg) (r : Record) : Record × String :=
  let dtype := r.getNULL FK.DATA_TYPE
  let vehicle := dtype = vStr DT.VEHICLE_2K ∨ dtype = vStr DT.VEHICLE_RAW_4K ∨
    dtype = vStr DT.MERGE
  let imageName :=
    if vehicle then
      pyDropRight (lastSplit '/' (pyStr (r.getNULL FK.CAR_IMAGE_FILE_NAME))) 4
    else pyDropRight (lastSplit '/' (pyStr (r.getNULL FK.IMAGE_FILE_NAME))) 4
  let r :=
    if vehicle then r.set FK.IMAGE_FILE (r.getNULL FK.CAR_IMAGE_FILE_NAME)
    else r.set FK.IMAGE_FILE (r.getNULL FK.IMAGE_FILE_NAME)
  let imageCreatedTime := lastSplit '_' imageName
  let step :
      Record × Nat × String :=
    if dtype = vStr DT.VEHICLE_2K ∨ dtype = vStr DT.MERGE then
      (r.set FK.CAR_IMAGE_FILE_NAME
        (vStr ("10_" ++ md5 (pyStr (r.getNULL FK.CAR_IMAGE_FILE_NAME)) ++
          ".jpg")), 10, cfg.car2k)
    else if dtype = vStr DT.VEHICLE_RAW_4K then
      let r := r.set FK.CAR_IMAGE_FILE_NAME
        (vStr ("10_" ++ md5 (pyStr (r.getNULL FK.CAR_IMAGE_FILE_NAME)) ++
          ".jpg"))
      let r :=
        match r.get? FK.IMAGE_BYTES_PLATE_4K with
        | none => r.set FK.PLATE_IMAGE_FILE_NAME (vStr "N_PLATE")
        | some vNull => r.set FK.PLATE_IMAGE_FILE_NAME (vStr "N_PLATE")
        | some _ => r.set FK.PLATE_IMAGE_FILE_NAME
            (vStr ("20_" ++ md5 (pyStr (r.getNULL FK.PLATE_NUM)) ++ ".jpg"))
      (r, 10, cfg.car4k)
    else if dtype = vStr DT.INCIDENT_START then
      (r.set FK.IMAGE_FILE_NAME
        (vStr ("30_" ++ md5 (pyStr (r.getNULL FK.IMAGE_FILE_NAME)) ++
          ".jpg")), 30, cfg.abnormal)
    else
      (r.set FK.IMAGE_FILE_NAME (vStr (imageName ++ ".jpg")), 20,
        cfg.queuePath)
  (step.1,
    pyJoin3 step.2.2 cameraId
      (generateTimePath ((strToInt? imageCreatedTime).getD 0) step.2.1))

/-- The image-bearing data types of the prepare step. -/
def imageTypes : List String :=
  [DT.VEHICLE_2K, DT.VEHICLE_RAW_4K, DT.MERGE, DT.INCIDENT_START,
   DT.QUEUE_APPROACH, DT.QUEUE_LANES]

/-- `DataSender._build_before_insert`: set the camera id if absent, apply
the raw-4K lane offset, hash the unique key, rewrite the image file names
to their local full paths and then the path to the remote directory, and
mark the record prepared. -/
def buildBeforeInsert (md5 sha256 : String → String) (cameraId : String)
    (laneOffset : Int) (cfg : RemoteCfg) (r : Record) : Option Record := do
  let dtype := r.getNULL FK.DATA_TYPE
  let r :=
    match r.get? FK.SPOT_CAMR_ID with
    | none => r.set FK.SPOT_CAMR_ID (vStr cameraId)
    | some vNull => r.set FK.SPOT_CAMR_ID (vStr cameraId)
    | some _ => r
  let r :=
    if dtype = vStr DT.VEHICLE_RAW_4K then
      r.set FK.LANE_NO
        (vStr (toString (pyInt (r.getNULL FK.LANE_NO) + laneOffset)))
    else r
  let r ← hashData sha256 cameraId r
  let r :=
    if dtype ∈ (imageTypes.map vStr) then
      let r :=
        if dtype = vStr DT.VEHICLE_2K ∨ dtype = vStr DT.VEHICLE_RAW_4K ∨
            dtype = vStr DT.MERGE then
          let r := r.set FK.CAR_IMAGE_FILE_NAME
            (vStr (pyStr (r.getNULL FK.IMAGE_PATH_NAME) ++ "/" ++
              pyStr (r.getNULL FK.CAR_IMAGE_FILE_NAME)))
          if dtype = vStr DT.VEHICLE_RAW_4K then
            r.set FK.PLATE_IMAGE_FILE_NAME
              (vStr (pyStr (r.getNULL FK.IMAGE_PATH_NAME) ++
                pyStr (r.getNULL FK.PLATE_IMAGE_FILE_NAME)))
          else r
        else
          r.set FK.IMAGE_FILE_NAME
            (vStr (pyStr (r.getNULL FK.IMAGE_PATH_NAME) ++ "/" ++
              pyStr (r.getNULL FK.IMAGE_FILE_NAME)))
      let rd := getRemoteDir md5 cameraId cfg r
      rd.1.set FK.IMAGE_PATH_NAME (vStr rd.2)
    else r
  return r.set FK.PREPARED (vBool true)

/-- `RedisAdaptor._publish`: presence records publish just
`str(presence_state)`; everything else would be JSON-serialized. -/
def redisPublishPayload (r : Record) : Option String :=
  if r.getNULL FK.DATA_TYPE = vStr DT.PRESENCE_VH ∨
     r.getNULL FK.DATA_TYPE = vStr DT.PRESENCE_WAIT ∨
     r.getNULL FK.DATA_TYPE = vStr DT.PRESENCE_CROSS then
    some (pyStr (r.getNULL FK.PRESENCE_STATE))
  else none

-- ============================================================
-- Spool serialization (server_adaptor/sqlite_table.py,
-- FailedMessageTable.insert = json.dumps; retry = json.loads)
-- ============================================================

/-- The JSON-serializable fragment of `Value`.  `json.dumps` raises
`TypeError` on `bytes`, so `vBytes` has no counterpart. -/
inductive JValue where
  | jStr (s : String)
  | jInt (n : Int)
  | jBool (b : Bool)
  | jNull
  | jStrList (ss : List String)
  | jBoolMap (m : List (String × Bool))
deriving DecidableEq, Repr

/-- `json.dumps` on a single value: `none` models the `TypeError` raised
on a byte buffer. -/
def dumpsValue : Value → Option JValue
  | vStr s => some (JValue.jStr s)
  | vInt n => some (JValue.jInt n)
  | vBool b => some (JValue.jBool b)
  | vNull => some JValue.jNull
  | vBytes _ => none
  | vStrList ss => some (JValue.jStrList ss)
  | vBoolMap m => some (JValue.jBoolMap m)

/-- `json.loads` of a stored spool payload value. -/
def loadsValue : JValue → Value
  | JValue.jStr s => vStr s
  | JValue.jInt n => vInt n
  | JValue.jBool b => vBool b
  | JValue.jNull => vNull
  | JValue.jStrList ss => vStrList ss
  | JValue.jBoolMap m => vBoolMap m

/-- `FailedMessageTable.insert`: `json.dumps(data)` over the whole record;
any single non-serializable value aborts the whole insert. -/
def spoolDumps (r : Record) : Option (List (String × JValue)) :=
  r.mapM (fun kv => (dumpsValue kv.2).map (fun j => (kv.1, j)))

/-- The retry worker's `json.loads` of a spool row. -/
def spoolLoads (row : List (String × JValue)) : Record :=
  row.map (fun kv => (kv.1, loadsValue kv.2))

/-- A record value is JSON-serializable iff it is not a byte buffer. -/
def serializableValue (v : Value) : Bool :=
  match v with
  | vBytes _ => false
  | _ => true

/-- A byte-free record round-trips through the spool exactly: the
`json.loads` of its `json.dumps` has the same keys and values. -/
theorem spool_roundtrip (r : Record)
    (h : ∀ kv ∈ r, serializableValue kv.2 = true) :
    ∃ row, spoolDumps r = some row ∧ spoolLoads row = r := by
  induction r with
  | nil => exact ⟨[], rfl, rfl⟩
  | cons kv rest ih =>
      obtain ⟨row, hd, hl⟩ :=
        ih (fun kv' h' => h kv' (List.mem_cons_of_mem kv h'))
      have hkv := h kv (List.mem_cons_self kv rest)
      obtain ⟨j, hj, hlj⟩ :
          ∃ j, dumpsValue kv.2 = some j ∧ loadsValue j = kv.2 := by
        cases hv : kv.2 <;>
          simp [dumpsValue, loadsValue, serializableValue, hv] at hkv ⊢
      refine ⟨(kv.1, j) :: row, ?_, ?_⟩
      · rw [spoolDumps] at hd ⊢
        rw [List.mapM_cons, hj, hd]
        rfl
      · rw [spoolLoads] at hl ⊢
        rw [List.map_cons, hl, hlj]

-- ============================================================
-- Sender delivery rounds and the sent_to map (data/sender.py)
-- ============================================================

/-- The per-record `sent_to` bookkeeping map. -/
abbrev SentTo := List (String × Bool)

def SentTo.get? (st : SentTo) (k : String) : Option Bool :=
  match st with
  | [] => none
  | (k', b) :: rest => if k' = k then some b else SentTo.get? rest k

def SentTo.set (st : SentTo) (k : String) (b : Bool) : SentTo :=
  match st with
  | [] => [(k, b)]
  | (k', b') :: rest =>
      if k' = k then (k, b) :: rest else (k', b') :: SentTo.set rest k b

/-- One server's step inside `_send_default`: a server outside the
permitted set is skipped, a missing entry is initialized to `False`, an
entry that is already `True` is skipped, and otherwise the entry is set
to this round's insert result. -/
def sendDefaultStep (allowed : List String) (result : String → Bool)
    (st : SentTo) (name : String) : SentTo :=
  if ¬ allowed.contains name then st
  else
    let st1 := if st.get? name = none then st.set name false else st
    if st1.get? name = some true then st1 else st1.set name (result name)

/-- The body of `_send_default` folded over the configured servers. -/
def sendDefaultRound (servers allowed : List String)
    (result : String → Bool) (st : SentTo) : SentTo :=
  servers.foldl (sendDefaultStep allowed result) st

/-- The image-upload prologue shared by `_send_2k`, `_send_raw_4k`,
`_send_wait` and `_send_abnormal`: initialize `sent_to["API"]` to `False`
if missing, attempt the upload only while it is `False`. -/
def apiRound (apiResult : Bool) (st : SentTo) : SentTo :=
  let st := if st.get? "API" = none then st.set "API" false else st
  if st.get? "API" = some true then st else st.set "API" apiResult

/-- One pass of the sender over a record: the optional image upload step
(present for the image-bearing send functions) followed by the
`_send_default` server loop. -/
structure RoundParams where
  api : Option Bool
  servers : List String
  allowed : List String
  result : String → Bool

def sendRound (p : RoundParams) (st : SentTo) : SentTo :=
  sendDefaultRound p.servers p.allowed p.result
    (match p.api with | some b => apiRound b st | none => st)

/-- A record's whole lifetime of send attempts (initial pass plus spool
replays; the `sent_to` map survives the spool round-trip). -/
def runRounds (ps : List RoundParams) (st : SentTo) : SentTo :=
  ps.foldl (fun st p => sendRound p st) st

-- ============================================================
-- OCR stage (data/lp_detector.py)
-- ============================================================

/-- The best-of-N selection loop of `LpDetector.main_loop` over the
per-candidate `(plate_num, ocr_conf)` results: the running best starts at
`("", 0.0)` and is replaced only on a strictly greater confidence. -/
def bestOf (cands : List (String × ℚ)) : String × ℚ :=
  cands.foldl (fun best c => if best.2 < c.2 then c else best) ("", 0)

/-- Exact rational arithmetic for the OCR geometry (the source computes
with floats; every quantity in the claims at issue is an exact dyadic or
small rational, where float and exact arithmetic agree).  Fractions are
kept sign-normalized (positive denominators) by construction. -/
structure Frac where
  num : Int
  den : Int
deriving DecidableEq, Repr, Inhabited

namespace Frac

/-- Smart constructor: reduce by the gcd and normalize the sign (any
representative of the same rational is equivalent for the order used
below). -/
def mk' (n d : Int) : Frac :=
  if d = 0 then ⟨n, 0⟩
  else
    let g : Int := Int.ofNat (Nat.gcd n.natAbs d.natAbs)
    let n' := n / g
    let d' := d / g
    if d' < 0 then ⟨-n', -d'⟩ else ⟨n', d'⟩

def ofInt (n : Int) : Frac := ⟨n, 1⟩

instance : Add Frac :=
  ⟨fun a b => mk' (a.num * b.den + b.num * a.den) (a.den * b.den)⟩

instance : Sub Frac :=
  ⟨fun a b => mk' (a.num * b.den - b.num * a.den) (a.den * b.den)⟩

instance : Mul Frac := ⟨fun a b => mk' (a.num * b.num) (a.den * b.den)⟩

/-- Division; a zero divisor yields 0, matching both the `ℚ` convention
and the min-norm (zero-slope) least-squares solution sklearn produces on
a singular design matrix. -/
instance : Div Frac :=
  ⟨fun a b => if b.num = 0 then ⟨0, 1⟩ else mk' (a.num * b.den) (a.den * b.num)⟩

/-- Comparison by cross multiplication (valid for the sign-normalized
fractions built here). -/
instance : LT Frac := ⟨fun a b => a.num * b.den < b.num * a.den⟩

instance : LE Frac := ⟨fun a b => a.num * b.den ≤ b.num * a.den⟩

instance (a b : Frac) : Decidable (a < b) :=
  inferInstanceAs (Decidable (a.num * b.den < b.num * a.den))

instance (a b : Frac) : Decidable (a ≤ b) :=
  inferInstanceAs (Decidable (a.num * b.den ≤ b.num * a.den))

def sum (l : List Frac) : Frac := l.foldl (· + ·) (ofInt 0)

end Frac

/-- One post-NMS character detection inside `_ocr_plate`: the box fields
the layout analysis reads (`box[0] = x`, `box[1] = y`, both Python ints),
the character confidence and the class id. -/
structure Det where
  x : Int
  y : Int
  conf : Frac
  classId : Nat
deriving DecidableEq, Repr, Inhabited

/-- Centered least-squares regression of y on x (`LinearRegression.fit`):
slope and intercept. -/
def regression (zipped : List Det) : Frac × Frac :=
  let n := Frac.ofInt zipped.length
  let xs := zipped.map (fun d => Frac.ofInt d.x)
  let ys := zipped.map (fun d => Frac.ofInt d.y)
  let xbar := Frac.sum xs / n
  let ybar := Frac.sum ys / n
  let sxy := Frac.sum ((xs.zip ys).map (fun p => (p.1 - xbar) * (p.2 - ybar)))
  let sxx := Frac.sum (xs.map (fun v => (v - xbar) * (v - xbar)))
  let a := sxy / sxx
  (a, ybar - a * xbar)

/-- The per-character regression predictions `y_predict`. -/
def yPredictOf (zipped : List Det) : List Frac :=
  let ab := regression zipped
  zipped.map (fun d => ab.1 * Frac.ofInt d.x + ab.2)

/-- The mean squared deviation of y from the regression line (the
"two-line variance"), computed before the y-snapping. -/
def varianceOf (zipped : List Det) : Frac :=
  let n := Frac.ofInt zipped.length
  Frac.sum
    (((yPredictOf zipped).zip (zipped.map (fun d => Frac.ofInt d.y))).map
      (fun p => (p.1 - p.2) * (p.1 - p.2))) / n

/-- Inner `j` loop of the y-snapping pass for a fixed `i`: any other
character whose current y differs from `y_i` by less than 9 px has its y
overwritten with `y_i`. -/
def snapOnce (a : Array Det) (i : Nat) : Array Det :=
  (List.range a.size).foldl
    (fun a j =>
      if i ≠ j ∧ ((a.getD i default).y - (a.getD j default).y).natAbs < 9 then
        a.setD j { a.getD j default with y := (a.getD i default).y }
      else a)
    a

/-- The full y-snapping double loop of `_ocr_plate` (mutates the shared
box lists in the source). -/
def snappedOf (zipped : List Det) : List Det :=
  ((List.range zipped.length).foldl snapOnce zipped.toArray).toList

/-- First partition of the two-row branch: characters strictly above the
regression prediction (`zip1`), using the snapped y values against the
pre-snapping predictions. -/
def zip1Of (zipped : List Det) : List Det :=
  (((snappedOf zipped).zip (yPredictOf zipped)).filter
    (fun p => Frac.ofInt p.1.y < p.2)).map Prod.fst

/-- Complement of `zip1Of` (`zip2`). -/
def zip2Of (zipped : List Det) : List Det :=
  (((snappedOf zipped).zip (yPredictOf zipped)).filter
    (fun p => ¬ (Frac.ofInt p.1.y < p.2))).map Prod.fst

/-- Python `sorted(·, key = x)`: stable ascending insertion by x. -/
def insertByX (d : Det) (l : List Det) : List Det :=
  match l with
  | [] => [d]
  | e :: es => if e.x ≤ d.x then e :: insertByX d es else d :: e :: es

def sortByX (l : List Det) : List Det :=
  l.foldl (fun acc d => insertByX d acc) []

/-- Character emission: class id > 9 emits the model's class name, id ≤ 9
emits the digit itself. -/
def plateChar (classNames : List String) (d : Det) : String :=
  if 9 < d.classId then classNames.getD d.classId "" else toString d.classId

def plateString (classNames : List String) (l : List Det) : String :=
  (l.map (plateChar classNames)).foldl (· ++ ·) ""

/-- `LpDetector._ocr_plate` from the post-NMS detection set onwards
(a `nil` plate image returns `("N_PLATE", 0.1)` before this point).
`none` models the `ZeroDivisionError` raised when a group of the
two-row partition is empty. -/
def ocrPlate (classNames : List String) (zipped : List Det) :
    Option (String × Frac) :=
  if zipped = [] then some ("N_OCR", ⟨1, 10⟩)
  else
    let conf := Frac.sum (zipped.map Det.conf)
    let ab := regression zipped
    let z := snappedOf zipped
    if Frac.ofInt 10 ≤ varianceOf zipped then
      let zip1 := zip1Of zipped
      let zip2 := zip2Of zipped
      if zip1.length = 0 ∨ zip2.length = 0 then none
      else
        let ux := Frac.sum (zip1.map (fun d => Frac.ofInt d.x)) /
          Frac.ofInt zip1.length
        let uy := Frac.sum (zip1.map (fun d => Frac.ofInt d.y)) /
          Frac.ofInt zip1.length
        let dx := Frac.sum (zip2.map (fun d => Frac.ofInt d.x)) /
          Frac.ofInt zip2.length
        let dy := Frac.sum (zip2.map (fun d => Frac.ofInt d.y)) /
          Frac.ofInt zip2.length
        let b2 := (uy + dy) / Frac.ofInt 2 - ab.1 * ((ux + dx) / Frac.ofInt 2)
        let upper := z.filter
          (fun d => Frac.ofInt d.y < ab.1 * Frac.ofInt d.x + b2)
        let down := z.filter
          (fun d => ¬ (Frac.ofInt d.y < ab.1 * Frac.ofInt d.x + b2))
        some (plateString classNames (sortByX upper ++ sortByX down), conf)
    else some (plateString classNames (sortByX z), conf)

-- ============================================================
-- Concrete fixtures
-- ============================================================

/-- The S1 2K wire payload. -/
def s1Payload2k : String :=
  "777,PCAR,2,11,1700000000,50,1700000002,60,55,1699999999,3,/img,777_2_1700000002.jpg"

/-- The record the router sends to the merge queue for the S1 2K payload. -/
def s1Record2k : Record :=
  ((route2k s1Payload2k (some ["middleware"])).toMerge).headD []

/-- The S1 4K record as it reaches the merger's 4K queue. -/
def s1Record4k : Record :=
  [(FK.CAR_ID_4K, vStr "888"), (FK.STOP_PASS_TIME, vStr "1700000002"),
   (FK.LANE_NO, vStr "2"), (FK.CAR_TYPE, vStr "PCAR"),
   (FK.PLATE_NUM, vStr "12GA3456"), (FK.PLATE_YN, vStr "Y"),
   (FK.PLATE_IMAGE_FILE_NAME, vStr "888.jpg"),
   (FK.DATA_TYPE, vStr DT.VEHICLE_4K),
   (FK.UK_PLAIN, vStr "888,1700000002,PCAR,2"),
   (FK.SEND_TO, vStrList ["middleware"])]

/-- One merger iteration on S1: the 2K record arrives on the blocking
dequeue, the 4K record on the 4K drain, at wall-clock 1700000002. -/
def s1Step : BucketMap × BucketMap × List (Record × Record) :=
  mainLoopStep [] [] s1Record2k [] [s1Record4k] 1700000002

/-- The merged records S1 puts on the server queue. -/
def s1Emitted : List Record :=
  s1Step.2.2.map (fun p => mkMerged p.1 p.2)

/-- A 2K u-turn payload (`turn_type_cd = 41`). -/
def uturnPayload : String :=
  "901,PCAR,3,41,1700000000,40,1700000005,45,42,1699999998,4,/img,901_3_1700000005.jpg"

/-- The u-turn record the router sends to the merge queue. -/
def uturnRec : Record :=
  ((route2k uturnPayload (some ["middleware"])).toMerge).headD []

/-- One merger iteration in which the u-turn record arrives via the
blocking 2K dequeue. -/
def uturnStep : BucketMap × BucketMap × List (Record × Record) :=
  mainLoopStep [] [] uturnRec [] [] 1700000005

/-- A raw-4K record after OCR with a failed upload round: both JPEG byte
buffers are still attached (they are deleted only on upload success) and
`sent_to` has the API destination false. -/
def raw4kFailedRec : Record :=
  [(FK.CAR_ID_4K, vStr "42"), (FK.STOP_PASS_TIME, vStr "1700000000"),
   (FK.LANE_NO, vStr "3"), (FK.CAR_TYPE, vStr "PCAR"),
   (FK.IMAGE_PATH_NAME, vStr "/img"),
   (FK.DATA_TYPE, vStr DT.VEHICLE_RAW_4K),
   (FK.UK_PLAIN, vStr "42,1700000000,PCAR,3"),
   (FK.PLATE_NUM, vStr "12GA3456"), (FK.PLATE_YN, vStr "Y"),
   (FK.CAR_IMAGE_FILE_NAME, vStr "42_PCAR_3_1700000000.jpg"),
   (FK.PLATE_IMAGE_FILE_NAME, vStr "42.jpg"),
   (FK.IMAGE_BYTES_4K, vBytes [255, 216, 255, 224]),
   (FK.IMAGE_BYTES_PLATE_4K, vBytes [255, 216, 255, 225]),
   (FK.SENT_TO, vBoolMap [("API", false), ("middleware", true)]),
   (FK.PREPARED, vBool true)]

/-- The record the router emits for payload `"1"` on a presence channel. -/
def presenceRec : Record :=
  ((routePresence "1" DT.PRESENCE_VH (some ["middleware"])).toServer).headD []

/-- The `image_remote` bases used in the concrete sender scenarios. -/
def cfg0 : RemoteCfg :=
  ⟨"/remote/2k", "/remote/4k", "/remote/queue", "/remote/abn"⟩

/-- A lanes-queue record as it reaches the sender's prepare step. -/
def queueRec : Record :=
  [(FK.DATA_TYPE, vStr DT.QUEUE_LANES),
   (FK.UK_PLAIN, vStr "1700000000,1700000300,PCAR,2"),
   (FK.IMAGE_PATH_NAME, vStr "/img"),
   (FK.IMAGE_FILE_NAME, vStr "q_1700000000.jpg"),
   (FK.LANE_NO, vStr "2")]

/-- The 2K record the router sends to the server queue for S1. -/
def s1Server2k : Record :=
  ((route2k s1Payload2k (some ["middleware"])).toServer).headD []

/-- The S1 2K server-queue record (the content `route_data` produces for
the S1 payload) as it reaches the sender's prepare step. -/
def vehicle2kPrepRec : Record :=
  [(FK.CAR_ID_2K, vStr "777"), (FK.CAR_TYPE, vStr "PCAR"),
   (FK.LANE_NO, vStr "2"), (FK.TURN_TYPE_CD, vStr "11"),
   (FK.TURN_TIME, vStr "1700000000"), (FK.TURN_SPEED, vStr "50"),
   (FK.STOP_PASS_TIME, vStr "1700000002"),
   (FK.STOP_PASS_SPEED, vStr "60"), (FK.INTERVAL_SPEED, vStr "55"),
   (FK.FIRST_DET_TIME, vStr "1699999999"), (FK.OBSERVE_TIME, vStr "3"),
   (FK.IMAGE_PATH_NAME, vStr "/img"),
   (FK.CAR_IMAGE_FILE_NAME, vStr "777_2_1700000002.jpg"),
   (FK.DATA_TYPE, vStr "2k"),
   (FK.UK_PLAIN,
    vStr "777,1700000002,PCAR,2,1700000000,60,777_2_1700000002.jpg"),
   (FK.SEND_TO, vStrList ["middleware"])]

/-- A raw-4K record as the OCR stage forwards it to the sender (plate
found, both JPEG byte buffers attached, not yet prepared). -/
def raw4kPrepRec : Record :=
  [(FK.CAR_ID_4K, vStr "42"), (FK.STOP_PASS_TIME, vStr "1700000000"),
   (FK.LANE_NO, vStr "3"), (FK.CAR_TYPE, vStr "PCAR"),
   (FK.IMAGE_PATH_NAME, vStr "/img"),
   (FK.DATA_TYPE, vStr DT.VEHICLE_RAW_4K),
   (FK.UK_PLAIN, vStr "42,1700000000,PCAR,3"),
   (FK.PLATE_NUM, vStr "12GA3456"), (FK.PLATE_YN, vStr "Y"),
   (FK.CAR_IMAGE_FILE_NAME, vStr "42_PCAR_3_1700000000.jpg"),
   (FK.PLATE_IMAGE_FILE_NAME, vStr "42.jpg"),
   (FK.IMAGE_BYTES_4K, vBytes [255, 216, 255, 224]),
   (FK.IMAGE_BYTES_PLATE_4K, vBytes [255, 216, 255, 225])]

/-- An incident-start record as it reaches the sender's prepare step. -/
def incidentRec : Record :=
  [(FK.DATA_TYPE, vStr DT.INCIDENT_START),
   (FK.UK_PLAIN, vStr "tr1,1700000050"),
   (FK.IMAGE_PATH_NAME, vStr "/img"),
   (FK.IMAGE_FILE_NAME, vStr "abn_1700000050.jpg")]

/-- A 2K record whose stop-pass time is far older than the aging cutoff. -/
def staleRec : Record :=
  [(FK.DATA_TYPE, vStr DT.VEHICLE_2K), (FK.LANE_NO, vStr "2"),
   (FK.CAR_TYPE, vStr "PCAR"), (FK.STOP_PASS_TIME, vStr "100"),
   (FK.TURN_TYPE_CD, vStr "11")]

/-- The C10 detection set: three characters at `(x, y) =
(1, 15), (0, 7), (2, 8)` with confidence 1/2 each. -/
def c10Dets : List Det :=
  [⟨1, 15, ⟨1, 2⟩, 1⟩, ⟨0, 7, ⟨1, 2⟩, 2⟩, ⟨2, 8, ⟨1, 2⟩, 3⟩]

/-- A well-behaved single-row detection set. -/
def c10SingleRow : List Det :=
  [⟨30, 5, ⟨6, 10⟩, 3⟩, ⟨10, 6, ⟨7, 10⟩, 1⟩, ⟨20, 4, ⟨8, 10⟩, 12⟩]

/-- Class names used in the OCR fixtures. -/
def ocrNames : List String :=
  ["c0", "c1", "c2", "c3", "c4", "c5", "c6", "c7", "c8", "c9", "ga", "na",
   "da"]

-- ============================================================
-- Claim theorems
-- ============================================================

set_option maxRecDepth 8000

set_option maxHeartbeats 3200000

/-- C1 (counterexample): in the S1 merge scenario the merger emits exactly
one merged record, but its plate-detected flag is not the matched 4K
record's `Y` — `_compare` copies only `plate_num` and
`plate_image_file_name`, so the claim's `plate_detected = Y` is false. -/
theorem C1_counterexample :
    s1Emitted.length = 1 ∧
    ¬ ((s1Emitted.headD []).getNULL FK.PLATE_YN = vStr "Y") := by decide

/-- C1 (amended): in the S1 merge scenario the single merged record has
`data_type = merge`, `car_id = 777`, `plate_num = "12GA3456"` and the 4K
plate image file name, but the plate-detected flag is not copied from the
4K record: the merged record has no `vhno_dttn_yn` key at all, so it
reads as the missing-key sentinel `"NULL"`. -/
theorem C1_theorem :
    s1Emitted.length = 1 ∧
    (s1Emitted.headD []).getNULL FK.DATA_TYPE = vStr DT.MERGE ∧
    (s1Emitted.headD []).getNULL FK.CAR_ID = vStr "777" ∧
    (s1Emitted.headD []).getNULL FK.PLATE_NUM = vStr "12GA3456" ∧
    (s1Emitted.headD []).getNULL FK.PLATE_IMAGE_FILE_NAME = vStr "888.jpg" ∧
    (s1Emitted.headD []).get? FK.PLATE_YN = none ∧
    (s1Emitted.headD []).getNULL FK.PLATE_YN = vStr "NULL" := by decide

/-- C2: a u-turn record (`turn_type_cd = "41"`) arriving on the blocking
2K dequeue of `main_loop` is inserted into the `compare_2k` buffer — that
path has no u-turn filter — while the same record arriving through
`_drain_queue` is dropped.  This contradicts the u-turn exclusion
invariant (and the merger's own docstring). -/
theorem C2_theorem :
    uturnRec.getNULL FK.TURN_TYPE_CD = vStr "41" ∧
    uturnStep.1.get (vStr "3", vStr "PCAR") = [uturnRec] ∧
    drainQueue [uturnRec] [] = [] := by decide

/-- C3: a raw-4K record that still carries its in-memory JPEG byte
buffers after a failed upload round cannot be written to the spool:
`json.dumps` raises `TypeError` on the byte values (`spoolDumps = none`),
so the record is dropped instead of being recoverable. -/
theorem C3_theorem :
    raw4kFailedRec.get? FK.SENT_TO =
      some (vBoolMap [("API", false), ("middleware", true)]) ∧
    (∃ bs, raw4kFailedRec.get? FK.IMAGE_BYTES_4K = some (vBytes bs)) ∧
    spoolDumps raw4kFailedRec = none := by
  refine ⟨by decide, ⟨[255, 216, 255, 224], by decide⟩, by decide⟩

/-- C4: for payload `"1"` on a presence channel the router emits a single
server-queue record with `data_type = pr_vh`, `presence_state = 1` and
`unique_key_plain = 1` (an int), and the KV-bus sink would publish the
literal string `"1"` for it — but the sender's prepare step raises a
`TypeError` (`camera_id + unique_key_plain` is `str + int`), so the
record is dropped before any sink is reached. -/
theorem C4_theorem :
    (routePresence "1" DT.PRESENCE_VH (some ["middleware"])).toServer =
      [presenceRec] ∧
    presenceRec.getNULL FK.DATA_TYPE = vStr DT.PRESENCE_VH ∧
    presenceRec.getNULL FK.PRESENCE_STATE = vInt 1 ∧
    presenceRec.getNULL FK.UK_PLAIN = vInt 1 ∧
    redisPublishPayload presenceRec = some "1" ∧
    (∀ md5 sha256 : String → String,
      buildBeforeInsert md5 sha256 "CAM01" 0 cfg0 presenceRec = none) := by
  refine ⟨by decide, by decide, by decide, by decide, by decide, ?_⟩
  intro md5 sha256
  rfl

/-- C5 (counterexample): after the prepare step on a lanes-queue record,
the image file name is the original base name (`q_1700000000.jpg`) —
the queue branch of `_get_remote_dir` never hashes it — so it does not
have the claimed `{type_prefix}_{md5(original)}.jpg` form for any prefix
in {10, 20, 30} (regardless of the hash function, which that branch never
calls; it is instantiated to the identity here). -/
theorem C5_counterexample :
    (buildBeforeInsert (fun s => s) (fun s => s) "CAM01" 0 cfg0
        queueRec).isSome = true ∧
    pyStr (((buildBeforeInsert (fun s => s) (fun s => s) "CAM01" 0 cfg0
        queueRec).getD []).getNULL FK.IMAGE_FILE_NAME) =
      "q_1700000000.jpg" ∧
    (∀ p ∈ ["10_", "20_", "30_"],
      pyStartsWith
        (pyStr (((buildBeforeInsert (fun s => s) (fun s => s) "CAM01" 0 cfg0
          queueRec).getD []).getNULL FK.IMAGE_FILE_NAME)) p = false) := by
  decide

-- Per-field helper lemmas for C5 (each a plain `rfl`; the combined
-- statement below is their conjunction).
theorem c5aux2kUK (md5 sha256 : String → String) :
    ((buildBeforeInsert md5 sha256 "CAM01" 0 cfg0 vehicle2kPrepRec).getD []
      |>.get? FK.UK) = some (vStr (sha256
        ("CAM01" ++ "777,1700000002,PCAR,2,1700000000,60,777_2_1700000002.jpg"))) := rfl

theorem c5aux2kCar (md5 sha256 : String → String) :
    ((buildBeforeInsert md5 sha256 "CAM01" 0 cfg0 vehicle2kPrepRec).getD []
      |>.get? FK.CAR_IMAGE_FILE_NAME) =
      some (vStr ("10_" ++ md5 "/img/777_2_1700000002.jpg" ++ ".jpg")) := rfl

theorem c5aux4kCar (md5 sha256 : String → String) :
    ((buildBeforeInsert md5 sha256 "CAM01" 0 cfg0 raw4kPrepRec).getD []
      |>.get? FK.CAR_IMAGE_FILE_NAME) =
      some (vStr ("10_" ++ md5 "/img/42_PCAR_3_1700000000.jpg" ++ ".jpg")) := rfl

theorem c5aux4kPlate (md5 sha256 : String → String) :
    ((buildBeforeInsert md5 sha256 "CAM01" 0 cfg0 raw4kPrepRec).getD []
      |>.get? FK.PLATE_IMAGE_FILE_NAME) =
      some (vStr ("20_" ++ md5 "12GA3456" ++ ".jpg")) := rfl

theorem c5auxAbnFile (md5 sha256 : String → String) :
    ((buildBeforeInsert md5 sha256 "CAM01" 0 cfg0 incidentRec).getD []
      |>.get? FK.IMAGE_FILE_NAME) =
      some (vStr ("30_" ++ md5 "/img/abn_1700000050.jpg" ++ ".jpg")) := rfl

theorem c5auxQUK (md5 sha256 : String → String) :
    ((buildBeforeInsert md5 sha256 "CAM01" 0 cfg0 queueRec).getD []
      |>.get? FK.UK) =
      some (vStr (sha256 ("CAM01" ++ "1700000000,1700000300,PCAR,2"))) := rfl

/-- C5 (amended): after the sender's one-shot prepare, for every hash
function pair: a 2K record gets `unique_key = sha256(camera_id ‖
unique_key_plain)` and its car image file name rewritten to
`10_{md5(local path)}.jpg` where the md5 input is the slash-joined
`image_path_name + "/" + original name` (not the bare original name);
a raw-4K record gets `10_{md5(joined path)}.jpg` for the car image and
`20_{md5(plate_num)}.jpg` for the plate image (md5 of the plate text,
not of a file name); an incident-start record gets
`30_{md5(joined path)}.jpg`; a queue record keeps its original base name
unhashed (`{original}.jpg`).  `image_path_name` is rewritten to the
remote directory and `_prepared` is set (those conjuncts do not depend on
the hash functions and are stated at the identity instantiation). -/
theorem C5_theorem (md5 sha256 : String → String) :
    ((buildBeforeInsert md5 sha256 "CAM01" 0 cfg0 vehicle2kPrepRec).getD []
      |>.get? FK.UK) = some (vStr (sha256
        ("CAM01" ++ "777,1700000002,PCAR,2,1700000000,60,777_2_1700000002.jpg"))) ∧
    ((buildBeforeInsert md5 sha256 "CAM01" 0 cfg0 vehicle2kPrepRec).getD []
      |>.get? FK.CAR_IMAGE_FILE_NAME) =
      some (vStr ("10_" ++ md5 "/img/777_2_1700000002.jpg" ++ ".jpg")) ∧
    ((buildBeforeInsert (fun s => s) (fun s => s) "CAM01" 0 cfg0
        vehicle2kPrepRec).getD [] |>.get? FK.IMAGE_PATH_NAME) =
      some (vStr "/remote/2k/CAM01/2023/11/15/07/13") ∧
    ((buildBeforeInsert (fun s => s) (fun s => s) "CAM01" 0 cfg0
        vehicle2kPrepRec).getD [] |>.get? FK.PREPARED) =
      some (vBool true) ∧
    ((buildBeforeInsert md5 sha256 "CAM01" 0 cfg0 raw4kPrepRec).getD []
      |>.get? FK.CAR_IMAGE_FILE_NAME) =
      some (vStr ("10_" ++ md5 "/img/42_PCAR_3_1700000000.jpg" ++ ".jpg")) ∧
    ((buildBeforeInsert md5 sha256 "CAM01" 0 cfg0 raw4kPrepRec).getD []
      |>.get? FK.PLATE_IMAGE_FILE_NAME) =
      some (vStr ("20_" ++ md5 "12GA3456" ++ ".jpg")) ∧
    ((buildBeforeInsert (fun s => s) (fun s => s) "CAM01" 0 cfg0
        raw4kPrepRec).getD [] |>.get? FK.IMAGE_PATH_NAME) =
      some (vStr "/remote/4k/CAM01/2023/11/15/07/13") ∧
    ((buildBeforeInsert md5 sha256 "CAM01" 0 cfg0 incidentRec).getD []
      |>.get? FK.IMAGE_FILE_NAME) =
      some (vStr ("30_" ++ md5 "/img/abn_1700000050.jpg" ++ ".jpg")) ∧
    ((buildBeforeInsert (fun s => s) (fun s => s) "CAM01" 0 cfg0
        incidentRec).getD [] |>.get? FK.IMAGE_PATH_NAME) =
      some (vStr "/remote/abn/CAM01/2023/11/15/07/14") ∧
    ((buildBeforeInsert (fun s => s) (fun s => s) "CAM01" 0 cfg0
        queueRec).getD [] |>.get? FK.IMAGE_FILE_NAME) =
      some (vStr "q_1700000000.jpg") ∧
    ((buildBeforeInsert (fun s => s) (fun s => s) "CAM01" 0 cfg0
        queueRec).getD [] |>.get? FK.IMAGE_PATH_NAME) =
      some (vStr "/remote/queue/CAM01/2023/11/15") ∧
    ((buildBeforeInsert md5 sha256 "CAM01" 0 cfg0 queueRec).getD []
      |>.get? FK.UK) =
      some (vStr (sha256 ("CAM01" ++ "1700000000,1700000300,PCAR,2"))) := by
  exact ⟨c5aux2kUK md5 sha256, c5aux2kCar md5 sha256, by decide, by decide, c5aux4kCar md5 sha256, c5aux4kPlate md5 sha256, by decide, c5auxAbnFile md5 sha256, by decide, by decide, by decide, c5auxQUK md5 sha256⟩

/-- C7 (counterexample): when the 4K buffer map is empty, `_compare`
returns before aging, so a matching pass leaves an entry 60 s older than
the wall clock sitting in the 2K buffer — the aging bound does not hold
"regardless of whether the 2K or 4K side is empty". -/
theorem C7_counterexample :
    (compareStep [((vStr "2", vStr "PCAR"), [staleRec])] [] 1700000000).1 =
      [((vStr "2", vStr "PCAR"), [staleRec])] ∧
    sptGet0 staleRec < 1700000000 - 60 := by decide

/-- C10 (counterexample): the detection set `c10Dets` has regression
variance 25/2 ≥ 10, yet the 9-px y-snapping collapses every y to 15,
leaving the whole set on one side of the regression line: `zip1` is
empty and `_ocr_plate` divides by `len(zip1) = 0` — it raises instead of
returning a `(text, confidence)` pair. -/
theorem C10_counterexample :
    c10Dets ≠ [] ∧
    Frac.ofInt 10 ≤ varianceOf c10Dets ∧
    zip1Of c10Dets = [] ∧
    ocrPlate ocrNames c10Dets = none := by decide

-- C6: every pair matched by the two-pointer walk satisfies the 1-second
-- window, by induction on the walk's fuel.

theorem walkFuel_window (d2 d4 : List Record) :
    ∀ (fuel i j : Nat) (p : Record × Record),
      p ∈ (walkFuel d2 d4 fuel i j).1 →
      (sptItem p.1 - sptItem p.2).natAbs ≤ 1 := by
  intro fuel
  induction fuel with
  | zero => intro i j p hp; simp [walkFuel] at hp
  | succ n ih =>
      intro i j p hp
      rw [walkFuel] at hp
      split at hp
      · dsimp only at hp
        split at hp
        · rename_i hwin
          rcases List.mem_cons.mp hp with heq | hmem
          · subst heq; exact hwin
          · exact ih (i + 1) (j + 1) p hmem
        · split at hp
          · exact ih (i + 1) j p hp
          · exact ih i (j + 1) p hp
      · simp at hp

theorem compareKeys_window (ks : List BKey) :
    ∀ (s2 s4 : BucketMap) (p : Record × Record),
      p ∈ (compareKeys ks s2 s4).2.2 →
      (sptItem p.1 - sptItem p.2).natAbs ≤ 1 := by
  induction ks with
  | nil => intro s2 s4 p hp; simp [compareKeys] at hp
  | cons k ks ih =>
      intro s2 s4 p hp
      rw [compareKeys] at hp
      split at hp
      · exact ih s2 s4 p hp
      · simp only [List.mem_append] at hp
        rcases hp with hw | hrest
        · exact walkFuel_window _ _ _ 0 0 p hw
        · exact ih _ _ p hrest

theorem Record.get?_set_other (r : Record) (k k2 : String) (v : Value)
    (h : k ≠ k2) : (Record.set r k v).get? k2 = r.get? k2 := by
  induction r with
  | nil => simp [Record.set, Record.get?, h]
  | cons kv rest ih =>
      by_cases hk : kv.1 = k
      · simp [Record.set, Record.get?, hk, h]
      · by_cases hk2 : kv.1 = k2
        · simp [Record.set, Record.get?, hk, hk2, Ne.symm h]
        · simp [Record.set, Record.get?, hk, hk2, ih]

/-- The merged record keeps the 2K record's stop-pass time: `mkMerged`
overwrites only `data_type`, `car_id` and the two plate fields. -/
theorem sptItem_mkMerged (a b : Record) :
    sptItem (mkMerged a b) = sptItem a := by
  rw [mkMerged, sptItem, Record.getNULL,
    Record.get?_set_other _ _ _ _ (by decide),
    Record.get?_set_other _ _ _ _ (by decide),
    Record.get?_set_other _ _ _ _ (by decide),
    Record.get?_set_other _ _ _ _ (by decide)]
  rfl

/-- C6: for every `(2K, 4K)` pair the matching pass emits a merged record
for, the two stop-pass times differ by at most one second (and the merged
record, which keeps the 2K stop-pass time, is within one second of the
matched 4K time): the two-pointer walk of `_compare` emits only inside
the `|t2 - t4| <= 1` branch. -/
theorem C6_theorem (s2 s4 : BucketMap) (now : Int) (p : Record × Record)
    (hp : p ∈ (compareStep s2 s4 now).2.2) :
    (sptItem p.1 - sptItem p.2).natAbs ≤ 1 ∧
    (sptItem (mkMerged p.1 p.2) - sptItem p.2).natAbs ≤ 1 := by
  have hb : (sptItem p.1 - sptItem p.2).natAbs ≤ 1 := by
    rw [compareStep] at hp
    split at hp
    · simp at hp
    · exact compareKeys_window _ _ _ p hp
  exact ⟨hb, by rw [sptItem_mkMerged]; exact hb⟩

/-- C6 (witness): the merge window bound applied to the S1 matching pass. -/
theorem C6_witness :
    (sptItem s1Record2k - sptItem s1Record4k).natAbs ≤ 1 ∧
    (sptItem (mkMerged s1Record2k s1Record4k) - sptItem s1Record4k).natAbs
      ≤ 1 :=
  C6_theorem [((vStr "2", vStr "PCAR"), [s1Record2k])]
    [((vStr "2", vStr "PCAR"), [s1Record4k])] 1700000002
    (s1Record2k, s1Record4k) (by decide)

-- C10: the two-row branch divides only by the partition group sizes, so
-- the computation succeeds whenever the variance is below the threshold
-- or both groups are non-empty.

/-- C10 (amended): `_ocr_plate` returns a `(text, confidence)` pair on a
post-NMS detection set whenever the two-line variance is below 10 or both
groups of the (post-snapping) partition against the regression line are
non-empty; the group-centroid divisions are the only failure point.  (The
counterexample shows the second hypothesis is not implied by the first:
a set with variance ≥ 10 can have an empty group after y-snapping, and
the code then raises.) -/
theorem C10_theorem (classNames : List String) (zipped : List Det)
    (h : varianceOf zipped < Frac.ofInt 10 ∨
      (zip1Of zipped ≠ [] ∧ zip2Of zipped ≠ [])) :
    (ocrPlate classNames zipped).isSome := by
  rw [ocrPlate]
  split
  · simp
  · split
    · rename_i hvar
      rcases h with hlt | ⟨h1, h2⟩
      · exfalso
        have : ¬ (Frac.ofInt 10 ≤ varianceOf zipped) := by
          simp only [Frac.instLT, Frac.instLE, Frac.ofInt] at hlt ⊢
          omega
        exact this hvar
      · rw [if_neg]
        · simp
        · push_neg
          constructor
          · simpa [List.length_eq_zero] using h1
          · simpa [List.length_eq_zero] using h2
    · simp

/-- C10 (witness): the amended totality statement applied to a concrete
single-row detection set. -/
theorem C10_witness : (ocrPlate ocrNames c10SingleRow).isSome :=
  C10_theorem ocrNames c10SingleRow (Or.inl (by decide))

-- C8: a destination already marked true is skipped by every send
-- variant, so `sent_to[d] = true` is preserved by every later round.

theorem SentTo.get?_set_self (st : SentTo) (k : String) (b : Bool) :
    (st.set k b).get? k = some b := by
  induction st with
  | nil => simp [SentTo.set, SentTo.get?]
  | cons kv rest ih =>
      by_cases h : kv.1 = k
      · simp [SentTo.set, SentTo.get?, h]
      · simp [SentTo.set, SentTo.get?, h, ih]

theorem SentTo.get?_set_ne (st : SentTo) (k k' : String) (b : Bool)
    (h : k ≠ k') : (st.set k b).get? k' = st.get? k' := by
  induction st with
  | nil => simp [SentTo.set, SentTo.get?, h]
  | cons kv rest ih =>
      by_cases hk : kv.1 = k
      · simp [SentTo.set, SentTo.get?, hk, h]
      · by_cases hk' : kv.1 = k'
        · simp [SentTo.set, SentTo.get?, hk, hk', Ne.symm h]
        · simp [SentTo.set, SentTo.get?, hk, hk', ih]

theorem sendDefaultStep_keeps_true (allowed : List String)
    (result : String → Bool) (st : SentTo) (name d : String)
    (h : st.get? d = some true) :
    (sendDefaultStep allowed result st name).get? d = some true := by
  rw [sendDefaultStep]
  split
  · exact h
  · try dsimp only
    set st1 := if st.get? name = none then st.set name false else st
      with hst1
    have h1 : st1.get? d = some true := by
      rw [hst1]
      split
      · rename_i hc
        by_cases hnd : name = d
        · subst hnd; rw [h] at hc; exact absurd hc (by simp)
        · rw [SentTo.get?_set_ne _ _ _ _ hnd]; exact h
      · exact h
    split
    · exact h1
    · rename_i hcond
      by_cases hnd : name = d
      · subst hnd; exact absurd h1 hcond
      · rw [SentTo.get?_set_ne _ _ _ _ hnd]; exact h1

theorem sendDefaultRound_keeps_true (servers allowed : List String)
    (result : String → Bool) (st : SentTo) (d : String)
    (h : st.get? d = some true) :
    (sendDefaultRound servers allowed result st).get? d = some true := by
  induction servers generalizing st with
  | nil => exact h
  | cons name rest ih =>
      rw [sendDefaultRound] at *
      simp only [List.foldl_cons]
      exact ih _ (sendDefaultStep_keeps_true allowed result st name d h)

theorem apiRound_keeps_true (apiResult : Bool) (st : SentTo) (d : String)
    (h : st.get? d = some true) :
    (apiRound apiResult st).get? d = some true := by
  rw [apiRound]
  try dsimp only
  set st1 := if st.get? "API" = none then st.set "API" false else st
    with hst1
  have h1 : st1.get? d = some true := by
    rw [hst1]
    split
    · rename_i hc
      by_cases hnd : "API" = d
      · subst hnd; rw [h] at hc; exact absurd hc (by simp)
      · rw [SentTo.get?_set_ne _ _ _ _ hnd]; exact h
    · exact h
  split
  · exact h1
  · rename_i hcond
    by_cases hnd : "API" = d
    · subst hnd; exact absurd h1 hcond
    · rw [SentTo.get?_set_ne _ _ _ _ hnd]; exact h1

theorem sendRound_keeps_true (p : RoundParams) (st : SentTo) (d : String)
    (h : st.get? d = some true) :
    (sendRound p st).get? d = some true := by
  rw [sendRound]
  apply sendDefaultRound_keeps_true
  cases hapi : p.api with
  | none => exact h
  | some b => exact apiRound_keeps_true b st d h

theorem runRounds_keeps_true (ps : List RoundParams) (st : SentTo)
    (d : String) (h : st.get? d = some true) :
    (runRounds ps st).get? d = some true := by
  induction ps generalizing st with
  | nil => exact h
  | cons p rest ih =>
      rw [runRounds] at *
      simp only [List.foldl_cons]
      exact ih _ (sendRound_keeps_true p st d h)

/-- C8: `sent_to[d]` is monotonic across any sequence of send rounds on a
record: once a round leaves destination `d` at `true`, every later round
(each of which skips destinations already `true` and only ever writes
`false → result`) still reports `true` — so `sent_to[d]` transitions at
most once, from false to true, and is never overwritten. -/
theorem C8_theorem (ps₁ ps₂ : List RoundParams) (st : SentTo) (d : String)
    (h : (runRounds ps₁ st).get? d = some true) :
    (runRounds (ps₁ ++ ps₂) st).get? d = some true := by
  rw [runRounds, List.foldl_append]
  exact runRounds_keeps_true ps₂ _ d h

/-- C8 (witness): a round that succeeds on destination `A` followed by a
round whose insert would fail — the `true` is not overwritten. -/
theorem C8_witness :
    (runRounds
      ([⟨none, ["A"], ["A"], fun _ => true⟩] ++
        [⟨none, ["A"], ["A"], fun _ => false⟩])
      []).get? "A" = some true :=
  C8_theorem [⟨none, ["A"], ["A"], fun _ => true⟩]
    [⟨none, ["A"], ["A"], fun _ => false⟩] [] "A" (by decide)

-- C9: the running-best fold keeps the first candidate attaining the
-- maximal confidence (strict greater-than against the running best).

theorem bestOf_foldl_spec (l : List (String × ℚ)) :
    ∀ acc : String × ℚ,
      (l.foldl (fun best c => if best.2 < c.2 then c else best) acc = acc ∧
        ∀ c ∈ l, c.2 ≤ acc.2) ∨
      (∃ pre post,
        l = pre ++
          (l.foldl (fun best c => if best.2 < c.2 then c else best) acc) ::
            post ∧
        acc.2 <
          (l.foldl (fun best c => if best.2 < c.2 then c else best) acc).2 ∧
        (∀ c ∈ pre,
          c.2 <
            (l.foldl (fun best c => if best.2 < c.2 then c else best)
              acc).2) ∧
        ∀ c ∈ l,
          c.2 ≤
            (l.foldl (fun best c => if best.2 < c.2 then c else best)
              acc).2) := by
  induction l with
  | nil => intro acc; exact Or.inl ⟨rfl, by simp⟩
  | cons c rest ih =>
      intro acc
      by_cases hc : acc.2 < c.2
      · have hstep : (c :: rest).foldl
            (fun best c => if best.2 < c.2 then c else best) acc =
            rest.foldl (fun best c => if best.2 < c.2 then c else best) c := by
          simp [hc]
        rcases ih c with ⟨heq, hall⟩ | ⟨pre, post, hsplit, hlt, hpre, hall⟩
        · refine Or.inr ⟨[], rest, ?_, ?_, by simp, ?_⟩
          · rw [hstep, heq]; simp
          · rw [hstep, heq]; exact hc
          · rw [hstep, heq]
            intro x hx
            rcases List.mem_cons.mp hx with rfl | hx
            · exact le_refl _
            · exact hall x hx
        · refine Or.inr ⟨c :: pre, post, ?_, ?_, ?_, ?_⟩
          · rw [hstep]; simpa using hsplit
          · rw [hstep]; exact lt_trans hc hlt
          · rw [hstep]
            intro x hx
            rcases List.mem_cons.mp hx with rfl | hx
            · exact hlt
            · exact hpre x hx
          · rw [hstep]
            intro x hx
            rcases List.mem_cons.mp hx with rfl | hx
            · exact le_of_lt hlt
            · exact hall x hx
      · have hstep : (c :: rest).foldl
            (fun best c => if best.2 < c.2 then c else best) acc =
            rest.foldl (fun best c => if best.2 < c.2 then c else best)
              acc := by
          simp [hc]
        rcases ih acc with ⟨heq, hall⟩ | ⟨pre, post, hsplit, hlt, hpre, hall⟩
        · refine Or.inl ⟨by rw [hstep, heq], ?_⟩
          intro x hx
          rcases List.mem_cons.mp hx with rfl | hx
          · exact le_of_not_lt hc
          · exact hall x hx
        · refine Or.inr ⟨c :: pre, post, ?_, ?_, ?_, ?_⟩
          · rw [hstep]; simpa using hsplit
          · rw [hstep]; exact hlt
          · rw [hstep]
            intro x hx
            rcases List.mem_cons.mp hx with rfl | hx
            · exact lt_of_le_of_lt (le_of_not_lt hc) hlt
            · exact hpre x hx
          · rw [hstep]
            intro x hx
            rcases List.mem_cons.mp hx with rfl | hx
            · exact le_trans (le_of_not_lt hc) (le_of_lt hlt)
            · exact hall x hx

/-- C9: for a non-empty candidate list with positive confidences, the
best-of-N loop returns a candidate of the list that attains the maximum
summed confidence, and on ties the first-processed candidate is kept:
everything before the returned candidate scores strictly less (the loop
replaces the running best only on a strictly greater score), and nothing
scores more. -/
theorem C9_theorem (cands : List (String × ℚ)) (hne : cands ≠ [])
    (hpos : ∀ c ∈ cands, 0 < c.2) :
    ∃ pre post,
      cands = pre ++ bestOf cands :: post ∧
      (∀ c ∈ pre, c.2 < (bestOf cands).2) ∧
      ∀ c ∈ cands, c.2 ≤ (bestOf cands).2 := by
  rcases bestOf_foldl_spec cands ("", 0) with ⟨_, hall⟩ | h
  · exfalso
    match cands, hne with
    | c :: rest, _ =>
        exact absurd (hall c (List.mem_cons_self c rest))
          (not_le.mpr (hpos c (List.mem_cons_self c rest)))
  · obtain ⟨pre, post, hsplit, _, hpre, hall⟩ := h
    exact ⟨pre, post, hsplit, hpre, hall⟩

/-- C9 (witness): the S3-style best-of-two selection (scores 3 and 5). -/
theorem C9_witness :
    ∃ pre post,
      [("AB", (3 : ℚ)), ("CD", 5)] =
        pre ++ bestOf [("AB", (3 : ℚ)), ("CD", 5)] :: post ∧
      (∀ c ∈ pre, c.2 < (bestOf [("AB", (3 : ℚ)), ("CD", 5)]).2) ∧
      ∀ c ∈ [("AB", (3 : ℚ)), ("CD", 5)],
        c.2 ≤ (bestOf [("AB", (3 : ℚ)), ("CD", 5)]).2 :=
  C9_theorem [("AB", (3 : ℚ)), ("CD", 5)] (by decide) (by decide)

-- C7: on a time-sorted bucket, `bisect_left(times, cutoff)` splits off
-- exactly the entries older than the cutoff, so `_remove_old_data` leaves
-- only fresh entries; the matching pass only ever deletes entries, so
-- freshness survives it.

theorem bisectLeftAux_ge (a : List Int) (x : Int)
    (hsort : ∀ i j : Nat, i ≤ j → j < a.length → a.getD i 0 ≤ a.getD j 0) :
    ∀ (fuel lo hi : Nat), hi ≤ a.length → hi - lo ≤ fuel →
      (∀ i : Nat, hi ≤ i → i < a.length → x ≤ a.getD i 0) →
      ∀ i : Nat, bisectLeftAux a x fuel lo hi ≤ i → i < a.length →
        x ≤ a.getD i 0 := by
  intro fuel
  induction fuel with
  | zero =>
      intro lo hi hhi hfuel hpost i hge hlt
      rw [bisectLeftAux] at hge
      exact hpost i (by omega) hlt
  | succ n ih =>
      intro lo hi hhi hfuel hpost i hge hlt
      rw [bisectLeftAux] at hge
      split at hge
      · rename_i hlohi
        dsimp only at hge
        have hm1 : lo ≤ (lo + hi) / 2 := by omega
        have hm2 : (lo + hi) / 2 < hi := by omega
        split at hge
        · exact ih ((lo + hi) / 2 + 1) hi hhi (by omega) hpost i hge hlt
        · rename_i hcmp
          refine ih lo ((lo + hi) / 2) (by omega) (by omega) ?_ i hge hlt
          intro k hk hklt
          exact le_trans (Int.not_lt.mp hcmp) (hsort _ k hk hklt)
      · exact hpost i (by omega) hlt

theorem pairwise_le_getD (a : List Int)
    (hp : a.Pairwise (· ≤ ·)) :
    ∀ i j : Nat, i ≤ j → j < a.length → a.getD i 0 ≤ a.getD j 0 := by
  intro i j hij hj
  have hi : i < a.length := lt_of_le_of_lt hij hj
  rw [List.getD_eq_getElem a 0 hi, List.getD_eq_getElem a 0 hj]
  rcases Nat.lt_or_ge i j with h | h
  · exact List.pairwise_iff_getElem.mp hp i j hi hj h
  · have : i = j := le_antisymm hij h
    subst this
    exact le_refl _

theorem bisectLeft_ge (l : List Int) (x : Int)
    (hp : l.Pairwise (· ≤ ·)) :
    ∀ i : Nat, bisectLeft l x ≤ i → i < l.length → x ≤ l.getD i 0 := by
  intro i hge hlt
  exact bisectLeftAux_ge l x (pairwise_le_getD l hp) l.length 0 l.length
    (le_refl _) (by omega) (fun k hk hklt => absurd hklt (by omega)) i hge hlt

/-- Time-sortedness of a merger bucket: the `int(x.get(STOP_PASS_TIME, 0))`
time vector is nondecreasing (the invariant `_insert_sorted` maintains). -/
def TimeSorted (b : List Record) : Prop :=
  (b.map sptGet0).Pairwise (· ≤ ·)

theorem removeOldBucket_fresh (b : List Record) (cutoff : Int)
    (hs : TimeSorted b) :
    ∀ r ∈ removeOldBucket b cutoff, cutoff ≤ sptGet0 r := by
  intro r hr
  rw [removeOldBucket] at hr
  try dsimp only at hr
  obtain ⟨i, hi, heq⟩ := List.mem_iff_getElem.mp hr
  set k := bisectLeft (b.map sptGet0) cutoff with hk
  have hki : k + i < b.length := by
    have := hi
    simp only [List.length_drop] at this
    omega
  have h1 : (b.drop k).getD i ([] : Record) = r := by
    rw [List.getD_eq_getElem _ _ hi, heq]
  have h2 : (b.drop k).getD i ([] : Record) = b.getD (k + i) [] := by
    rw [List.getD_eq_getElem _ _ hi, List.getD_eq_getElem _ _ hki]
    exact List.getElem_drop b
  have hm : k + i < (b.map sptGet0).length := by simpa using hki
  have hmap : cutoff ≤ (b.map sptGet0).getD (k + i) 0 := by
    apply bisectLeft_ge (b.map sptGet0) cutoff hs _ _ hm
    omega
  have h3 : (b.map sptGet0).getD (k + i) 0 = sptGet0 (b.getD (k + i) []) := by
    rw [List.getD_eq_getElem _ _ hm, List.getD_eq_getElem _ _ hki]
    exact List.getElem_map sptGet0
  rw [h3, ← h2, h1] at hmap
  exact hmap

/-- All entries of every bucket of a merger map are at or after `cutoff`. -/
def MapFresh (m : BucketMap) (cutoff : Int) : Prop :=
  ∀ kb ∈ m, ∀ r ∈ kb.2, cutoff ≤ sptGet0 r

theorem removeOldData_fresh (m : BucketMap) (now : Int)
    (hs : ∀ kb ∈ m, TimeSorted kb.2) :
    MapFresh (removeOldData m now) (now - 60) := by
  intro kb hkb r hr
  rw [removeOldData] at hkb
  simp only [List.mem_filter, List.mem_map] at hkb
  obtain ⟨⟨kb0, hkb0, rfl⟩, _⟩ := hkb
  exact removeOldBucket_fresh _ _ (hs kb0 hkb0) r hr

theorem BucketMap.get_fresh {m : BucketMap} {c : Int}
    (h : MapFresh m c) (k : BKey) :
    ∀ r ∈ m.get k, c ≤ sptGet0 r := by
  induction m with
  | nil => intro r hr; simp [BucketMap.get] at hr
  | cons kb rest ih =>
      intro r hr
      rw [BucketMap.get] at hr
      split at hr
      · exact h kb (List.mem_cons_self kb rest) r hr
      · exact ih (fun kb' hkb' => h kb' (List.mem_cons_of_mem kb hkb')) r hr

theorem BucketMap.set_fresh {m : BucketMap} {c : Int}
    (h : MapFresh m c) (k : BKey) (b : List Record)
    (hb : ∀ r ∈ b, c ≤ sptGet0 r) : MapFresh (m.set k b) c := by
  induction m with
  | nil =>
      intro kb hkb r hr
      rw [BucketMap.set] at hkb
      rcases List.mem_singleton.mp hkb with rfl
      exact hb r hr
  | cons kb0 rest ih =>
      intro kb hkb r hr
      rw [BucketMap.set] at hkb
      split at hkb
      · rcases List.mem_cons.mp hkb with rfl | hkb
        · exact hb r hr
        · exact h kb (List.mem_cons_of_mem kb0 hkb) r hr
      · rcases List.mem_cons.mp hkb with heq | hkb
        · refine h kb0 (List.mem_cons_self kb0 rest) r ?_
          rw [heq] at hr
          exact hr
        · exact ih (fun kb' hkb' => h kb' (List.mem_cons_of_mem kb0 hkb'))
            kb hkb r hr

theorem BucketMap.pop_fresh {m : BucketMap} {c : Int}
    (h : MapFresh m c) (k : BKey) : MapFresh (m.pop k) c := by
  intro kb hkb
  exact h kb (List.mem_of_mem_filter hkb)

theorem foldl_eraseIdx_mem (is : List Nat) :
    ∀ (l : List Record) (r : Record),
      r ∈ is.foldl (fun acc i => acc.eraseIdx i) l → r ∈ l := by
  induction is with
  | nil => intro l r hr; exact hr
  | cons i rest ih =>
      intro l r hr
      simp only [List.foldl_cons] at hr
      exact (List.eraseIdx_sublist l i).mem (ih _ r hr)

theorem delIndicesDesc_mem (l : List Record) (idxs : List Nat)
    (r : Record) (hr : r ∈ delIndicesDesc l idxs) : r ∈ l :=
  foldl_eraseIdx_mem idxs.reverse l r hr

theorem compareKeys_fresh (ks : List BKey) :
    ∀ (s2 s4 : BucketMap) (c : Int), MapFresh s2 c → MapFresh s4 c →
      MapFresh (compareKeys ks s2 s4).1 c ∧
      MapFresh (compareKeys ks s2 s4).2.1 c := by
  induction ks with
  | nil => intro s2 s4 c h2 h4; exact ⟨h2, h4⟩
  | cons k ks ih =>
      intro s2 s4 c h2 h4
      rw [compareKeys]
      split
      · exact ih s2 s4 c h2 h4
      · dsimp only
        apply ih
        · split
          · exact BucketMap.pop_fresh h2 k
          · exact BucketMap.set_fresh h2 k _
              (fun r hr => BucketMap.get_fresh h2 k r
                (delIndicesDesc_mem _ _ r hr))
        · split
          · exact BucketMap.pop_fresh h4 k
          · exact BucketMap.set_fresh h4 k _
              (fun r hr => BucketMap.get_fresh h4 k r
                (delIndicesDesc_mem _ _ r hr))

/-- C7 (amended): after a matching pass in which both buffer maps are
non-empty (the early return of `_compare` fires otherwise) and every
bucket is time-sorted (the invariant `_insert_sorted` maintains), no
entry strictly older than `now - 60` remains in either buffer. -/
theorem C7_theorem (s2 s4 : BucketMap) (now : Int)
    (h2 : s2 ≠ []) (h4 : s4 ≠ [])
    (hs2 : ∀ kb ∈ s2, TimeSorted kb.2)
    (hs4 : ∀ kb ∈ s4, TimeSorted kb.2) :
    MapFresh (compareStep s2 s4 now).1 (now - 60) ∧
    MapFresh (compareStep s2 s4 now).2.1 (now - 60) := by
  rw [compareStep]
  rw [if_neg (by simp [h2, h4])]
  exact compareKeys_fresh _ _ _ _ (removeOldData_fresh s2 now hs2)
    (removeOldData_fresh s4 now hs4)

/-- C7 (witness): the amended aging bound applied to the concrete S1
buffers at wall-clock 1700000002. -/
theorem C7_witness :
    MapFresh
      (compareStep [((vStr "2", vStr "PCAR"), [s1Record2k])]
        [((vStr "2", vStr "PCAR"), [s1Record4k])] 1700000002).1
      (1700000002 - 60) ∧
    MapFresh
      (compareStep [((vStr "2", vStr "PCAR"), [s1Record2k])]
        [((vStr "2", vStr "PCAR"), [s1Record4k])] 1700000002).2.1
      (1700000002 - 60) :=
  C7_theorem [((vStr "2", vStr "PCAR"), [s1Record2k])]
    [((vStr "2", vStr "PCAR"), [s1Record4k])] 1700000002
    (by simp) (by simp)
    (by
      intro kb hkb
      simp only [List.mem_singleton] at hkb
      subst hkb
      simp [TimeSorted])
    (by
      intro kb hkb
      simp only [List.mem_singleton] at hkb
      subst hkb
      simp [TimeSorted])

end Track
